import Mathlib

/-!
Verification development for the WebSocket event-distribution server.

Shallow embedding of the core subsystems, translated from the TypeScript
sources:
  * `PermissionFilter` (role/ownership based event visibility and command
    authorization),
  * `CircuitBreaker` (three-state failure-isolation state machine),
  * `WebSocketRateLimiter` / `WebSocketThrottler` (sliding-window budget
    and interval-gated coalescing),
  * `ArduinoSerialBridge` (hardware-link supervisor: reconnection policy
    and device-state restoration),
  * `ConnectionManager` (connected-user registry and room membership).

Machine integers of the source are modelled as `Nat`/`Int`; JavaScript
`Map`s as association lists with replace-on-set semantics; JavaScript
`Set`s as duplicate-free insertion; nullable / undefined values as
`Option`.
-/

namespace WsApi

/-- JavaScript coercion `x || ""` applied to a possibly-undefined string. -/
def jsOrEmpty : Option String → String
  | some s => s
  | none => ""

/-- JavaScript template-literal rendering of a possibly-undefined string
(`undefined` prints as the literal text "undefined"). -/
def jsStr : Option String → String
  | some s => s
  | none => "undefined"

/-- JavaScript `list && list.includes(x)` where `x` may be undefined:
an undefined element is never a member of a string list, and an absent
list makes the whole conjunction falsy. -/
def optIncludes : Option (List String) → Option String → Bool
  | some l, some x => l.contains x
  | _, _ => false

/-! ### PermissionFilter (src/unnamed/part_007) -/

/-- `PermissionFilter.checkDevicePermission`: with no device id only
superadmin passes; with a device id the three known roles pass (the
ownership lookup is simplified to `true` in the source) and any other
role fails. -/
def checkDevicePermission (userRole : Option String) (deviceId : Option String) :
    Bool :=
  match deviceId with
  | none => userRole == some "superadmin"
  | some _ =>
    if userRole == some "superadmin" then true
    else if userRole == some "empresa" then true
    else if userRole == some "cliente" then true
    else false

/-- `PermissionFilter.checkAlertPermission`: critical severity admits the
three known roles regardless of the visibility lists; otherwise the role
must be listed in `visibleToRoles` or the user in `assignedUsers`. -/
def checkAlertPermission (userRole userId : Option String) (severity : String)
    (visibleToRoles assignedUsers : Option (List String)) : Bool :=
  if severity == "critical" then
    (["superadmin", "empresa", "cliente"]).contains (jsOrEmpty userRole)
  else if optIncludes visibleToRoles userRole then true
  else if optIncludes assignedUsers userId then true
  else false

/-- Critical command list of `PermissionFilter.canExecuteCommand`. -/
def criticalCommands : List String :=
  ["reset", "configure", "update_firmware", "factory_reset"]

/-- Advanced command list of `PermissionFilter.canExecuteCommand`. -/
def advancedCommands : List String :=
  ["restart", "calibrate", "diagnostic"]

/-- Basic command list of `PermissionFilter.canExecuteCommand`. -/
def basicCommands : List String :=
  ["on", "off", "status"]

/-- `PermissionFilter.canExecuteCommand`, translated branch by branch:
two deny-guards for critical and advanced commands, a device-permission
check for basic commands, and a final catch-all `return false`. -/
def canExecuteCommand (userRole : Option String) (command : String)
    (deviceId : String) : Bool :=
  if criticalCommands.contains command && !(userRole == some "superadmin") then
    false
  else if advancedCommands.contains command &&
      !((["superadmin", "empresa"]).contains (jsOrEmpty userRole)) then
    false
  else if basicCommands.contains command then
    checkDevicePermission userRole (some deviceId)
  else
    false

/-- `PermissionFilter.getRoomsForUser`: the personal room when a user id
is present, then the role-specific rooms of the `switch` statement. -/
def getRoomsForUser (userId userRole : Option String) : List String :=
  let rooms : List String :=
    match userId with
    | some uid => ["user:" ++ uid]
    | none => []
  match userRole with
  | some r =>
    if r == "superadmin" then
      rooms ++ ["role:superadmin", "admin:global", "admin:alerts", "admin:commands"]
    else if r == "empresa" then
      rooms ++ ["role:empresa", "empresa:" ++ jsStr userId,
        "empresa:alerts:" ++ jsStr userId]
    else if r == "cliente" then
      rooms ++ ["role:cliente", "cliente:" ++ jsStr userId,
        "devices:cliente:" ++ jsStr userId]
    else rooms
  | none => rooms

/-! ### CircuitBreaker (src/src/lib/CircuitBreaker.ts)

Time is modelled as a `Nat` millisecond clock passed explicitly to each
call (the source reads `Date.now()`).  The wrapped asynchronous function
is modelled by its outcome (`success` or `failure`); `execute` returns
the call result, the successor breaker state, and a flag recording
whether the wrapped function was invoked at all.  The `resetTimeout`
timer of the source only zeroes counters during sustained CLOSED
operation and is not needed by the verified properties; its scheduling
points are kept as comments. -/

inductive CBState where
  | CLOSED
  | OPEN
  | HALF_OPEN
  deriving DecidableEq, Repr

structure CBOptions where
  failureThreshold : Nat
  successThreshold : Nat
  timeout : Nat
  deriving DecidableEq, Repr

structure CB where
  state : CBState
  failureCount : Nat
  successCount : Nat
  totalCalls : Nat
  nextAttemptTime : Option Nat
  deriving DecidableEq, Repr

/-- Fresh breaker, as initialized by the class fields. -/
def CB.init : CB :=
  { state := CBState.CLOSED
    failureCount := 0
    successCount := 0
    totalCalls := 0
    nextAttemptTime := none }

inductive ExecOutcome where
  | success
  | failure
  deriving DecidableEq, Repr

inductive CBError where
  | circuitOpen
  | fnFailed
  deriving DecidableEq, Repr

/-- `CircuitBreaker.shouldAttemptReset`: the open timeout has elapsed. -/
def CB.shouldAttemptReset (s : CB) (now : Nat) : Bool :=
  match s.nextAttemptTime with
  | some t => t ≤ now
  | none => false

/-- `CircuitBreaker.moveToHalfOpen`. -/
def CB.moveToHalfOpen (s : CB) : CB :=
  { s with state := CBState.HALF_OPEN, successCount := 0 }

/-- `CircuitBreaker.open`: records the next retry-eligible time. -/
def CB.openCircuit (opts : CBOptions) (now : Nat) (s : CB) : CB :=
  { s with state := CBState.OPEN, nextAttemptTime := some (now + opts.timeout) }

/-- `CircuitBreaker.close`. -/
def CB.closeCircuit (s : CB) : CB :=
  { s with
    state := CBState.CLOSED
    failureCount := 0
    successCount := 0
    nextAttemptTime := none }

/-- `CircuitBreaker.onSuccess`: zero the failure streak; in HALF_OPEN
count the success and close once the streak reaches the threshold. -/
def CB.onSuccess (opts : CBOptions) (s : CB) : CB :=
  let s := { s with failureCount := 0 }
  if s.state = CBState.HALF_OPEN then
    let s := { s with successCount := s.successCount + 1 }
    if opts.successThreshold ≤ s.successCount then s.closeCircuit else s
  else
    s

/-- `CircuitBreaker.onFailure`: count the failure, zero the success
streak; open from CLOSED at the threshold and from HALF_OPEN at once. -/
def CB.onFailure (opts : CBOptions) (now : Nat) (s : CB) : CB :=
  let s := { s with failureCount := s.failureCount + 1, successCount := 0 }
  if s.state = CBState.CLOSED ∧ opts.failureThreshold ≤ s.failureCount then
    CB.openCircuit opts now s
  else if s.state = CBState.HALF_OPEN then
    CB.openCircuit opts now s
  else
    s

/-- The `try/await fn()` tail of `CircuitBreaker.execute`: run the
wrapped function and apply the matching counter update.  The returned
flag is `true` because the function was invoked. -/
def CB.runFn (opts : CBOptions) (s : CB) (now : Nat) (outcome : ExecOutcome) :
    Except CBError Unit × CB × Bool :=
  match outcome with
  | ExecOutcome.success => (Except.ok (), CB.onSuccess opts s, true)
  | ExecOutcome.failure => (Except.error CBError.fnFailed, CB.onFailure opts now s, true)

/-- `CircuitBreaker.execute`: count the call; while OPEN either reject
with the CIRCUIT_OPEN error (timeout not yet elapsed — the wrapped
function is not invoked) or fall through to HALF_OPEN and invoke it. -/
def CB.execute (opts : CBOptions) (s : CB) (now : Nat) (outcome : ExecOutcome) :
    Except CBError Unit × CB × Bool :=
  let s := { s with totalCalls := s.totalCalls + 1 }
  if s.state = CBState.OPEN then
    if s.shouldAttemptReset now then
      CB.runFn opts s.moveToHalfOpen now outcome
    else
      (Except.error CBError.circuitOpen, s, false)
  else
    CB.runFn opts s now outcome

/-- State reached after a sequence of `execute` calls, all with the same
clock value and outcome. -/
def CB.iterExec (opts : CBOptions) (now : Nat) (outcome : ExecOutcome)
    (k : Nat) (s : CB) : CB :=
  (fun s => (CB.execute opts s now outcome).2.1)^[k] s

/-! ### JavaScript Map / Set model

`Map` is an association list with replace-on-set semantics (insertion
order preserved, a `set` on an existing key overwrites in place); `Set`
is a duplicate-free list with append-if-absent insertion. -/

def mapGet {α : Type} : List (String × α) → String → Option α
  | [], _ => none
  | (k', v) :: rest, k => if k' = k then some v else mapGet rest k

def mapSet {α : Type} : List (String × α) → String → α → List (String × α)
  | [], k, v => [(k, v)]
  | (k', v') :: rest, k, v =>
    if k' = k then (k, v) :: rest else (k', v') :: mapSet rest k v

def mapDelete {α : Type} (m : List (String × α)) (k : String) :
    List (String × α) :=
  m.filter (fun p => p.1 ≠ k)

def setAdd (s : List String) (x : String) : List String :=
  if s.contains x then s else s ++ [x]

/-! ### ArduinoSerialBridge: restoration across connection epochs
(src/unnamed/part_006)

The bridge state keeps the device registry (`Map` keyed by device id —
only the key list matters here) and the `restoredDevices` `Set`.  The
external device directory consulted by `restoreDeviceState` (an HTTP
lookup of the persisted `ultimaLectura`) is a parameter `env`.  The
port-`close` handler and the 3-second settle callback of the `open`
handler are modelled as the events `onPortClose` and
`onPortOpenSettle`. -/

structure Reading where
  energia : Nat
  costo : Nat
  deriving DecidableEq, Repr

structure BridgeState where
  deviceRegistry : List String
  restoredDevices : List String
  deriving DecidableEq, Repr

/-- The `close` handler of the serial port: persists last readings
(external, ignored here) and clears the `restoredDevices` set so that
restoration re-runs on the next connection epoch. -/
def onPortClose (b : BridgeState) : BridgeState :=
  { b with restoredDevices := [] }

/-- `ArduinoSerialBridge.restoreDeviceState`: look the device up in the
external directory and, when a persisted reading with truthy `energia`
exists, emit one `RESTORE:energia:costo` line to the link; otherwise
emit nothing. -/
def restoreDeviceState (env : String → Option Reading) (d : String) :
    List String :=
  match env d with
  | some r =>
    if r.energia ≠ 0 then
      ["RESTORE:" ++ toString r.energia ++ ":" ++ toString r.costo]
    else []
  | none => []

/-- Loop body of the settle callback: walk the registry keys, skipping
devices already marked restored, marking then restoring the rest. -/
def settleRestoreLoop (env : String → Option Reading) :
    List String → BridgeState → BridgeState × List String
  | [], b => (b, [])
  | d :: rest, b =>
    if b.restoredDevices.contains d then
      settleRestoreLoop env rest b
    else
      let b' := { b with restoredDevices := b.restoredDevices ++ [d] }
      let r := settleRestoreLoop env rest b'
      (r.1, restoreDeviceState env d ++ r.2)

/-- The 3-second settle callback of the `open` handler: restore every
registered device not yet restored in this connection epoch, returning
the commands written to the link. -/
def onPortOpenSettle (env : String → Option Reading) (b : BridgeState) :
    BridgeState × List String :=
  settleRestoreLoop env b.deviceRegistry b

/-- Concrete external device directory used to exercise the restoration
claims: "dev1" has a persisted reading with nonzero energy, "dev2" one
with zero energy, and every other device none. -/
def mixedDirectory : String → Option Reading
  | "dev1" => some ⟨7, 3⟩
  | "dev2" => some ⟨0, 5⟩
  | _ => none

/-! ### ArduinoSerialBridge: reconnection policy (src/unnamed/part_006) -/

structure ReconnectState where
  reconnectAttempts : Nat
  maxReconnectAttempts : Nat
  isReconnecting : Bool
  timerArmed : Bool
  deriving DecidableEq, Repr

/-- `ArduinoSerialBridge.scheduleReconnect`: bail out while a reconnect
is in flight or a timer is armed; bail out (arming nothing) once the
attempt counter has reached the cap; otherwise count the attempt and arm
the delay timer. -/
def scheduleReconnect (s : ReconnectState) : ReconnectState :=
  if s.isReconnecting || s.timerArmed then s
  else if s.maxReconnectAttempts ≤ s.reconnectAttempts then s
  else
    { s with
      isReconnecting := true
      reconnectAttempts := s.reconnectAttempts + 1
      timerArmed := true }

/-- `ArduinoSerialBridge.resetReconnectAttempts`. -/
def resetReconnectAttempts (s : ReconnectState) : ReconnectState :=
  { s with reconnectAttempts := 0 }

/-! ### WebSocketRateLimiter (src/src/lib/CircuitBreaker.ts)

Timestamps are `Int` milliseconds (JavaScript subtraction may go
negative).  `rlCheck` acts on the stored timestamp list of one socket
id; note that on rejection the source returns before writing the pruned
list back, so the stored list is unchanged. -/

structure RateLimitConfig where
  windowMs : Int
  maxRequests : Nat
  deriving DecidableEq, Repr

/-- `WebSocketRateLimiter.check` for one socket id: prune timestamps to
the window, reject when the pruned count has reached `maxRequests`,
otherwise record the call. -/
def rlCheck (cfg : RateLimitConfig) (now : Int) (reqs : List Int) :
    Bool × List Int :=
  let windowStart := now - cfg.windowMs
  let filtered := reqs.filter (fun t => windowStart < t)
  if cfg.maxRequests ≤ filtered.length then
    (false, reqs)
  else
    (true, filtered ++ [now])

/-! ### WebSocketThrottler (src/src/lib/CircuitBreaker.ts)

State of one `(socketId, eventKey)` key: the last-emit timestamp and the
pending burst queue.  The `setTimeout(minInterval)` flush callback is
the separate event `flushQueue`. -/

structure ThrottleConfig where
  minInterval : Int
  maxBurst : Option Nat
  deriving DecidableEq, Repr

/-- JavaScript coercion `maxBurst || 1` (undefined and 0 are falsy). -/
def jsOrOne : Option Nat → Nat
  | some (n + 1) => n + 1
  | _ => 1

structure ThrottleState (α : Type) where
  lastEventTime : Option Int
  queue : List α

/-- `WebSocketThrottler.canEmit` for one key: emit when `minInterval`
has elapsed since the recorded last emission (`|| 0` when absent),
recording the new emission time. -/
def canEmit {α : Type} (cfg : ThrottleConfig) (now : Int)
    (s : ThrottleState α) : Bool × ThrottleState α :=
  let lastTime := s.lastEventTime.getD 0
  if cfg.minInterval ≤ now - lastTime then
    (true, { s with lastEventTime := some now })
  else
    (false, s)

/-- `WebSocketThrottler.throttleWithQueue` for one key: emit at once
when the gate is open; otherwise append the payload while the queue is
below `maxBurst`, or overwrite the queue's last slot when full.  The
returned list holds the payloads emitted synchronously by this call. -/
def throttleWithQueue {α : Type} (cfg : ThrottleConfig) (now : Int)
    (data : α) (s : ThrottleState α) : ThrottleState α × List α :=
  let p := canEmit cfg now s
  if p.1 then
    (p.2, [data])
  else
    let maxBurst := jsOrOne cfg.maxBurst
    if p.2.queue.length < maxBurst then
      ({ p.2 with queue := p.2.queue ++ [data] }, [])
    else
      ({ p.2 with queue := p.2.queue.dropLast ++ [data] }, [])

/-- The `setTimeout` flush callback of `throttleWithQueue`: when a queue
is pending, emit only its last (most recent) element and delete the
queue. -/
def flushQueue {α : Type} (s : ThrottleState α) : ThrottleState α × List α :=
  match s.queue.getLast? with
  | some d => ({ s with queue := [] }, [d])
  | none => (s, [])

/-! ### ConnectionManager (src/src/services/ConnectionManager.ts)

`connectedUsers` maps an identity id to its socket (represented by the
socket id); `userRooms` maps a socket id to its recorded room set. -/

structure CMState where
  connectedUsers : List (String × String)
  userRooms : List (String × List String)
  deriving DecidableEq, Repr

def CMState.empty : CMState :=
  { connectedUsers := [], userRooms := [] }

/-- The `connectedUsers` update of `ConnectionManager.handleConnection`:
a truthy `userId` keys the socket into the map, overwriting any entry
already present for that identity. -/
def handleConnection (cm : CMState) (socketId : String)
    (userId : Option String) : CMState :=
  match userId with
  | some uid => { cm with connectedUsers := mapSet cm.connectedUsers uid socketId }
  | none => cm

/-- The `connectedUsers` update of
`ConnectionManager.handleDisconnection`: a truthy `userId` on the
disconnecting socket deletes that identity's single entry, whichever
socket currently occupies it. -/
def handleDisconnection (cm : CMState) (userId : Option String) : CMState :=
  match userId with
  | some uid => { cm with connectedUsers := mapDelete cm.connectedUsers uid }
  | none => cm

/-- `ConnectionManager.isUserConnected`. -/
def isUserConnected (cm : CMState) (userId : String) : Bool :=
  (mapGet cm.connectedUsers userId).isSome

/-- `ConnectionManager.getUserSocket`. -/
def getUserSocket (cm : CMState) (userId : String) : Option String :=
  mapGet cm.connectedUsers userId

/-- `ConnectionManager.joinRoom`: ensure the socket has a room set, then
add the room to it (`Set.add`). -/
def joinRoom (cm : CMState) (socketId room : String) : CMState :=
  let cur := (mapGet cm.userRooms socketId).getD []
  { cm with userRooms := mapSet cm.userRooms socketId (setAdd cur room) }

/-! ### Helper lemmas on the Map / Set model -/

theorem mapGet_mapSet_self {α : Type} (m : List (String × α)) (k : String)
    (v : α) : mapGet (mapSet m k v) k = some v := by
  induction m with
  | nil => simp [mapSet, mapGet]
  | cons p rest ih =>
    obtain ⟨k', v'⟩ := p
    by_cases h : k' = k
    · simp [mapSet, mapGet, h]
    · simp [mapSet, mapGet, h, ih]

theorem mapSet_mapSet_self {α : Type} (m : List (String × α)) (k : String)
    (v w : α) : mapSet (mapSet m k v) k w = mapSet m k w := by
  induction m with
  | nil => simp [mapSet]
  | cons p rest ih =>
    obtain ⟨k', v'⟩ := p
    by_cases h : k' = k
    · simp [mapSet, h]
    · simp [mapSet, h, ih]

theorem mapGet_mapDelete_self {α : Type} (m : List (String × α)) (k : String) :
    mapGet (mapDelete m k) k = none := by
  induction m with
  | nil => simp [mapDelete, mapGet]
  | cons p rest ih =>
    obtain ⟨k', v'⟩ := p
    by_cases h : k' = k
    · simpa [mapDelete, mapGet, h] using ih
    · simpa [mapDelete, mapGet, h] using ih

theorem setAdd_contains (s : List String) (x : String) :
    (setAdd s x).contains x = true := by
  show (if s.contains x = true then s else s ++ [x]).contains x = true
  by_cases h : s.contains x = true
  · rw [if_pos h]
    exact h
  · rw [if_neg h]
    simp

theorem setAdd_idem (s : List String) (x : String) :
    setAdd (setAdd s x) x = setAdd s x := by
  have h := setAdd_contains s x
  show (if (setAdd s x).contains x = true then setAdd s x
      else setAdd s x ++ [x]) = setAdd s x
  rw [if_pos h]

/-! ### Claim theorems: permission filter -/

/-- C1: the spec's tiered command policy says destructive commands
("reset", "configure", "update_firmware", "factory_reset") are permitted
exactly for superadmin, and operational commands ("restart",
"calibrate", "diagnostic") exactly for superadmin or empresa with device
permission.  The code instead denies these commands for every role: its
guard clauses only filter out unauthorized roles, and the function then
falls through to the catch-all `return false`, so even a superadmin with
full device permission is denied "reset" and "restart".  Only the basic
commands behave as specified.  This theorem evaluates the code at the
failing inputs. -/
theorem claim1_canExecuteCommand_denies_privileged_commands :
    canExecuteCommand (some "superadmin") "reset" "dev1" = false ∧
    canExecuteCommand (some "superadmin") "restart" "dev1" = false ∧
    canExecuteCommand (some "empresa") "restart" "dev1" = false ∧
    checkDevicePermission (some "superadmin") (some "dev1") = true ∧
    checkDevicePermission (some "empresa") (some "dev1") = true ∧
    canExecuteCommand (some "cliente") "on" "dev1" = true := by
  decide

/-- C2: for every alert with severity "critical", the alert permission
check returns true for each of the three roles (superadmin, empresa,
cliente), for every contents of `visibleToRoles` and `assignedUsers`,
including empty or mismatched lists. -/
theorem claim2_critical_alert_visible_to_all_roles :
    ∀ role ∈ (["superadmin", "empresa", "cliente"] : List String),
      ∀ (userId : Option String) (vis asg : Option (List String)),
        checkAlertPermission (some role) userId "critical" vis asg = true := by
  intro role hrole userId vis asg
  simp only [List.mem_cons, List.not_mem_nil, or_false] at hrole
  rcases hrole with h | h | h <;> subst h <;> rfl

/-- C2 witness: the critical-severity bypass evaluated for the cliente
role with an empty visibility list. -/
theorem claim2_critical_alert_visible_to_all_roles_witness :
    checkAlertPermission (some "cliente") none "critical" (some []) none = true :=
  claim2_critical_alert_visible_to_all_roles "cliente" (by decide) none
    (some []) none

/-! ### Claim theorems: connection manager -/

/-- C9: room assignment is deterministic — `getRoomsForUser` depends
only on the connection's claims (userId, userRole), so equal claims give
equal room lists — and joining a connection to the same room twice
leaves the registry's recorded room state identical to joining once. -/
theorem claim9_rooms_deterministic_idempotent :
    (∀ (u₁ r₁ u₂ r₂ : Option String), u₁ = u₂ → r₁ = r₂ →
      getRoomsForUser u₁ r₁ = getRoomsForUser u₂ r₂) ∧
    (∀ (cm : CMState) (sid room : String),
      joinRoom (joinRoom cm sid room) sid room = joinRoom cm sid room) := by
  constructor
  · intro u₁ r₁ u₂ r₂ hu hr
    rw [hu, hr]
  · intro cm sid room
    simp only [joinRoom, mapGet_mapSet_self, Option.getD_some,
      mapSet_mapSet_self, setAdd_idem]

/-- C9 witness: determinism and idempotent join evaluated on a concrete
empresa connection. -/
theorem claim9_rooms_deterministic_idempotent_witness :
    getRoomsForUser (some "u1") (some "empresa") =
      getRoomsForUser (some "u1") (some "empresa") ∧
    joinRoom (joinRoom CMState.empty "s1" "r1") "s1" "r1" =
      joinRoom CMState.empty "s1" "r1" :=
  ⟨claim9_rooms_deterministic_idempotent.1 (some "u1") (some "empresa")
      (some "u1") (some "empresa") rfl rfl,
    claim9_rooms_deterministic_idempotent.2 CMState.empty "s1" "r1"⟩

/-- C10: `connectedUsers` is keyed by identity id, not connection id:
a second connection authenticating with the same userId overwrites the
first connection's entry, and a disconnect of the first (older) socket
deletes the single shared entry, so afterwards `isUserConnected` is
false and `getUserSocket` returns nothing even though the newer
connection is still live. -/
theorem claim10_connected_users_keyed_by_identity :
    ∀ (cm : CMState) (s1 s2 uid : String),
      getUserSocket (handleConnection (handleConnection cm s1 (some uid)) s2
        (some uid)) uid = some s2 ∧
      isUserConnected (handleDisconnection (handleConnection
        (handleConnection cm s1 (some uid)) s2 (some uid)) (some uid)) uid
        = false ∧
      getUserSocket (handleDisconnection (handleConnection
        (handleConnection cm s1 (some uid)) s2 (some uid)) (some uid)) uid
        = none := by
  intro cm s1 s2 uid
  refine ⟨?_, ?_, ?_⟩
  · simp [handleConnection, getUserSocket, mapSet_mapSet_self,
      mapGet_mapSet_self]
  · simp [handleConnection, handleDisconnection, isUserConnected,
      getUserSocket, mapGet_mapDelete_self]
  · simp [handleConnection, handleDisconnection, getUserSocket,
      mapGet_mapDelete_self]

/-! ### Helper lemmas on the circuit breaker -/

theorem cb_iterExec_succ (opts : CBOptions) (now : Nat) (o : ExecOutcome)
    (k : Nat) (s : CB) :
    CB.iterExec opts now o (k + 1) s =
      CB.iterExec opts now o k (CB.execute opts s now o).2.1 :=
  Function.iterate_succ_apply _ k s

theorem cb_iterExec_succ' (opts : CBOptions) (now : Nat) (o : ExecOutcome)
    (k : Nat) (s : CB) :
    CB.iterExec opts now o (k + 1) s =
      (CB.execute opts (CB.iterExec opts now o k s) now o).2.1 :=
  Function.iterate_succ_apply' _ k s

theorem cb_step_closed_fail_lt (opts : CBOptions) (now : Nat) (s : CB)
    (h : s.state = CBState.CLOSED)
    (hlt : s.failureCount + 1 < opts.failureThreshold) :
    (CB.execute opts s now ExecOutcome.failure).2.1 =
      { s with totalCalls := s.totalCalls + 1,
               failureCount := s.failureCount + 1,
               successCount := 0 } := by
  have hnle : ¬ opts.failureThreshold ≤ s.failureCount + 1 := by omega
  simp [CB.execute, CB.runFn, CB.onFailure, h, hnle]

theorem cb_step_closed_fail_ge (opts : CBOptions) (now : Nat) (s : CB)
    (h : s.state = CBState.CLOSED)
    (hge : opts.failureThreshold ≤ s.failureCount + 1) :
    (CB.execute opts s now ExecOutcome.failure).2.1 =
      CB.openCircuit opts now
        { s with totalCalls := s.totalCalls + 1,
                 failureCount := s.failureCount + 1,
                 successCount := 0 } := by
  simp [CB.execute, CB.runFn, CB.onFailure, h, hge]

theorem cb_iter_closed_fail (opts : CBOptions) (now : Nat) (k : Nat) :
    ∀ s : CB, s.state = CBState.CLOSED →
      s.failureCount + k < opts.failureThreshold →
      (CB.iterExec opts now ExecOutcome.failure k s).state = CBState.CLOSED ∧
      (CB.iterExec opts now ExecOutcome.failure k s).failureCount =
        s.failureCount + k := by
  induction k with
  | zero =>
    intro s h _
    exact ⟨h, rfl⟩
  | succ k ih =>
    intro s h hlt
    rw [cb_iterExec_succ, cb_step_closed_fail_lt opts now s h (by omega)]
    have hrec := ih
      { s with totalCalls := s.totalCalls + 1,
               failureCount := s.failureCount + 1,
               successCount := 0 } h (by simpa using by omega)
    refine ⟨hrec.1, ?_⟩
    rw [hrec.2]
    simp
    omega

theorem cb_step_half_success_lt (opts : CBOptions) (now : Nat) (s : CB)
    (h : s.state = CBState.HALF_OPEN)
    (hlt : s.successCount + 1 < opts.successThreshold) :
    (CB.execute opts s now ExecOutcome.success).2.1 =
      { s with totalCalls := s.totalCalls + 1,
               failureCount := 0,
               successCount := s.successCount + 1 } := by
  have hnle : ¬ opts.successThreshold ≤ s.successCount + 1 := by omega
  simp [CB.execute, CB.runFn, CB.onSuccess, h, hnle]

theorem cb_step_half_success_ge (opts : CBOptions) (now : Nat) (s : CB)
    (h : s.state = CBState.HALF_OPEN)
    (hge : opts.successThreshold ≤ s.successCount + 1) :
    ((CB.execute opts s now ExecOutcome.success).2.1).state =
      CBState.CLOSED := by
  simp [CB.execute, CB.runFn, CB.onSuccess, CB.closeCircuit, h, hge]

theorem cb_iter_half_success (opts : CBOptions) (now : Nat) (k : Nat) :
    ∀ s : CB, s.state = CBState.HALF_OPEN →
      s.successCount + k < opts.successThreshold →
      (CB.iterExec opts now ExecOutcome.success k s).state =
        CBState.HALF_OPEN ∧
      (CB.iterExec opts now ExecOutcome.success k s).successCount =
        s.successCount + k := by
  induction k with
  | zero =>
    intro s h _
    exact ⟨h, rfl⟩
  | succ k ih =>
    intro s h hlt
    rw [cb_iterExec_succ, cb_step_half_success_lt opts now s h (by omega)]
    have hrec := ih
      { s with totalCalls := s.totalCalls + 1,
               failureCount := 0,
               successCount := s.successCount + 1 } h (by simpa using by omega)
    refine ⟨hrec.1, ?_⟩
    rw [hrec.2]
    simp
    omega

/-! ### Claim theorems: circuit breaker -/

/-- C3: every `execute` call made while the breaker is OPEN and before
`nextAttemptTime` rejects with the distinguishable CIRCUIT_OPEN error
and never invokes the wrapped function (invocation flag `false`, state
untouched apart from the call counter); in particular, after 5
consecutive failures with `failureThreshold = 5` the breaker is OPEN and
a 6th call within the timeout window rejects without touching the
wrapped function. -/
theorem claim3_open_rejects_without_invoking :
    (∀ (opts : CBOptions) (s : CB) (now t : Nat) (outcome : ExecOutcome),
      s.state = CBState.OPEN → s.nextAttemptTime = some t → now < t →
        CB.execute opts s now outcome =
          (Except.error CBError.circuitOpen,
            { s with totalCalls := s.totalCalls + 1 }, false)) ∧
    ((CB.iterExec ⟨5, 2, 60000⟩ 0 ExecOutcome.failure 5 CB.init).state =
        CBState.OPEN ∧
      (CB.execute ⟨5, 2, 60000⟩
          (CB.iterExec ⟨5, 2, 60000⟩ 0 ExecOutcome.failure 5 CB.init) 1000
          ExecOutcome.failure).1 = Except.error CBError.circuitOpen ∧
      (CB.execute ⟨5, 2, 60000⟩
          (CB.iterExec ⟨5, 2, 60000⟩ 0 ExecOutcome.failure 5 CB.init) 1000
          ExecOutcome.failure).2.2 = false) := by
  constructor
  · intro opts s now t outcome h1 h2 h3
    have hnle : ¬ t ≤ now := by omega
    simp [CB.execute, CB.shouldAttemptReset, h1, h2, hnle]
  · refine ⟨by decide, by rfl, by decide⟩

/-- C3 witness: the rejection equation instantiated on the concrete
5-failure scenario (state OPEN, next attempt at 60000, call at 1000). -/
theorem claim3_open_rejects_without_invoking_witness :
    CB.execute ⟨5, 2, 60000⟩
        (CB.iterExec ⟨5, 2, 60000⟩ 0 ExecOutcome.failure 5 CB.init) 1000
        ExecOutcome.success =
      (Except.error CBError.circuitOpen,
        { CB.iterExec ⟨5, 2, 60000⟩ 0 ExecOutcome.failure 5 CB.init with
            totalCalls :=
              (CB.iterExec ⟨5, 2, 60000⟩ 0 ExecOutcome.failure 5
                CB.init).totalCalls + 1 }, false) :=
  claim3_open_rejects_without_invoking.1 ⟨5, 2, 60000⟩
    (CB.iterExec ⟨5, 2, 60000⟩ 0 ExecOutcome.failure 5 CB.init) 1000 60000
    ExecOutcome.success (by decide) (by decide) (by decide)

/-- C4: the breaker state machine satisfies the specified transitions:
from a fresh CLOSED state, exactly `failureThreshold` consecutive
failures reach OPEN (fewer stay CLOSED); a call at or after
`nextAttemptTime` while OPEN is processed from the HALF_OPEN state
produced by `moveToHalfOpen` (the wrapped function runs there); a single
failure while HALF_OPEN returns the state to OPEN; and
`successThreshold` consecutive successes from a fresh HALF_OPEN state
reach CLOSED. -/
theorem claim4_circuit_breaker_transitions :
    (∀ (opts : CBOptions) (now n : Nat) (s : CB),
      s.state = CBState.CLOSED → s.failureCount = 0 →
      opts.failureThreshold = n → 0 < n →
        (CB.iterExec opts now ExecOutcome.failure n s).state =
          CBState.OPEN ∧
        ∀ m < n, (CB.iterExec opts now ExecOutcome.failure m s).state =
          CBState.CLOSED) ∧
    (∀ (opts : CBOptions) (s : CB) (now t : Nat) (outcome : ExecOutcome),
      s.state = CBState.OPEN → s.nextAttemptTime = some t → t ≤ now →
        CB.execute opts s now outcome =
          CB.runFn opts
            (CB.moveToHalfOpen { s with totalCalls := s.totalCalls + 1 })
            now outcome ∧
        (CB.moveToHalfOpen
          { s with totalCalls := s.totalCalls + 1 }).state =
            CBState.HALF_OPEN) ∧
    (∀ (opts : CBOptions) (s : CB) (now : Nat),
      s.state = CBState.HALF_OPEN →
        ((CB.execute opts s now ExecOutcome.failure).2.1).state =
          CBState.OPEN) ∧
    (∀ (opts : CBOptions) (now n : Nat) (s : CB),
      s.state = CBState.HALF_OPEN → s.successCount = 0 →
      opts.successThreshold = n → 0 < n →
        (CB.iterExec opts now ExecOutcome.success n s).state =
          CBState.CLOSED) := by
  refine ⟨?_, ?_, ?_, ?_⟩
  · intro opts now n s hst hfc hth hn
    obtain ⟨m, rfl⟩ : ∃ m, n = m + 1 := ⟨n - 1, by omega⟩
    constructor
    · rw [cb_iterExec_succ']
      have hm := cb_iter_closed_fail opts now m s hst (by omega)
      rw [cb_step_closed_fail_ge opts now _ hm.1 (by rw [hm.2]; omega)]
      rfl
    · intro k hk
      exact (cb_iter_closed_fail opts now k s hst (by omega)).1
  · intro opts s now t outcome h1 h2 h3
    refine ⟨?_, rfl⟩
    simp [CB.execute, CB.shouldAttemptReset, h1, h2, h3]
  · intro opts s now h
    simp [CB.execute, CB.runFn, CB.onFailure, CB.openCircuit, h]
  · intro opts now n s hst hsc hth hn
    obtain ⟨m, rfl⟩ : ∃ m, n = m + 1 := ⟨n - 1, by omega⟩
    rw [cb_iterExec_succ']
    have hm := cb_iter_half_success opts now m s hst (by omega)
    exact cb_step_half_success_ge opts now _ hm.1 (by rw [hm.2]; omega)

/-- C4 witness: the four transition clauses instantiated on a breaker
with thresholds 5 and 2 and timeout 60000. -/
theorem claim4_circuit_breaker_transitions_witness :
    (CB.iterExec ⟨5, 2, 60000⟩ 0 ExecOutcome.failure 5 CB.init).state =
      CBState.OPEN ∧
    CB.execute ⟨5, 2, 60000⟩
        (CB.iterExec ⟨5, 2, 60000⟩ 0 ExecOutcome.failure 5 CB.init) 60000
        ExecOutcome.failure =
      CB.runFn ⟨5, 2, 60000⟩
        (CB.moveToHalfOpen
          { CB.iterExec ⟨5, 2, 60000⟩ 0 ExecOutcome.failure 5 CB.init with
              totalCalls :=
                (CB.iterExec ⟨5, 2, 60000⟩ 0 ExecOutcome.failure 5
                  CB.init).totalCalls + 1 }) 60000 ExecOutcome.failure ∧
    ((CB.execute ⟨5, 2, 60000⟩ ⟨CBState.HALF_OPEN, 0, 0, 6, some 60000⟩ 0
        ExecOutcome.failure).2.1).state = CBState.OPEN ∧
    (CB.iterExec ⟨5, 2, 60000⟩ 0 ExecOutcome.success 2
      ⟨CBState.HALF_OPEN, 0, 0, 6, some 60000⟩).state = CBState.CLOSED := by
  refine ⟨?_, ?_, ?_, ?_⟩
  · exact (claim4_circuit_breaker_transitions.1 ⟨5, 2, 60000⟩ 0 5 CB.init
      (by decide) (by decide) (by decide) (by decide)).1
  · exact (claim4_circuit_breaker_transitions.2.1 ⟨5, 2, 60000⟩
      (CB.iterExec ⟨5, 2, 60000⟩ 0 ExecOutcome.failure 5 CB.init) 60000 60000
      ExecOutcome.failure (by decide) (by decide) (by decide)).1
  · exact claim4_circuit_breaker_transitions.2.2.1 ⟨5, 2, 60000⟩
      ⟨CBState.HALF_OPEN, 0, 0, 6, some 60000⟩ 0 rfl
  · exact claim4_circuit_breaker_transitions.2.2.2 ⟨5, 2, 60000⟩ 0 2
      ⟨CBState.HALF_OPEN, 0, 0, 6, some 60000⟩ rfl rfl rfl (by decide)

/-! ### Helper lemmas on the bridge restoration loop -/

theorem settleRestoreLoop_fresh (env : String → Option Reading) :
    ∀ (ds : List String) (b : BridgeState), ds.Nodup →
      (∀ d ∈ ds, d ∉ b.restoredDevices) →
      (settleRestoreLoop env ds b).2 = ds.flatMap (restoreDeviceState env) ∧
      (settleRestoreLoop env ds b).1.restoredDevices =
        b.restoredDevices ++ ds := by
  intro ds
  induction ds with
  | nil =>
    intro b _ _
    simp [settleRestoreLoop]
  | cons d rest ih =>
    intro b hnd hfresh
    have hd : b.restoredDevices.contains d = false := by
      simpa using hfresh d (by simp)
    have hrec := ih { b with restoredDevices := b.restoredDevices ++ [d] }
      hnd.of_cons (by
        intro e he
        simp only [List.mem_append, List.mem_singleton]
        rintro (h | rfl)
        · exact hfresh e (by simp [he]) h
        · exact (List.nodup_cons.mp hnd).1 he)
    simp only [settleRestoreLoop, hd, Bool.false_eq_true, if_false,
      List.flatMap_cons]
    refine ⟨by rw [hrec.1], ?_⟩
    rw [hrec.2]
    simp

/-! ### Claim theorems: bridge restoration across epochs -/

/-- C5 counterexample: the claim that after a disconnect/reconnect every
device in the registry receives exactly one RESTORE command is false at
a concrete input.  With one registered device "dev1" (already restored
in the previous epoch) whose external directory lookup returns no
persisted reading, the settle pass after close-then-open writes zero
commands to the link: `restoreDeviceState` only emits a RESTORE line
when a persisted reading with nonzero `energia` exists. -/
theorem claim5_restore_counterexample :
    (onPortOpenSettle (fun _ => none)
      (onPortClose ⟨["dev1"], ["dev1"]⟩)).2 = [] ∧
    (onPortClose (⟨["dev1"], ["dev1"]⟩ : BridgeState)).deviceRegistry =
      ["dev1"] := by
  constructor <;> rfl

/-- C5 amended: the `restoredDevices` marker set is cleared by the port
close handler, so restoration re-runs in every connection epoch; in the
settle pass after a reconnect, the command stream written to the link is
the concatenation, in registry order, of each registered device's
restore output — and that output is exactly one RESTORE line when the
device's external lookup yields a persisted reading with nonzero
energy, and empty when the reading has zero energy or is absent.  So in
any mixed registry each nonzero-energy device receives exactly one
restore directive and the others receive none. -/
theorem claim5_restore_once_per_epoch (env : String → Option Reading)
    (b : BridgeState) (hnd : b.deviceRegistry.Nodup) :
    (onPortClose b).restoredDevices = [] ∧
    (onPortOpenSettle env (onPortClose b)).2 =
      b.deviceRegistry.flatMap (restoreDeviceState env) ∧
    (∀ (d : String) (r : Reading), env d = some r → r.energia ≠ 0 →
      (restoreDeviceState env d).length = 1) ∧
    (∀ (d : String) (r : Reading), env d = some r → r.energia = 0 →
      restoreDeviceState env d = []) ∧
    (∀ d : String, env d = none → restoreDeviceState env d = []) := by
  have hloop := settleRestoreLoop_fresh env b.deviceRegistry (onPortClose b)
    hnd (by intro d _; simp [onPortClose])
  refine ⟨rfl, ?_, ?_, ?_, ?_⟩
  · simpa [onPortOpenSettle, onPortClose] using hloop.1
  · intro d r hr hne
    simp [restoreDeviceState, hr, hne]
  · intro d r hr hz
    simp [restoreDeviceState, hr, hz]
  · intro d hnone
    simp [restoreDeviceState, hnone]

/-- C5 amended witness: a mixed registry of three devices — persisted
nonzero energy, persisted zero energy, and no persisted reading.  After
close-then-settle the marker set is cleared, the stream is the
per-device concatenation, and the three devices contribute one, zero
and zero RESTORE lines respectively. -/
theorem claim5_restore_once_per_epoch_witness :
    (onPortClose (⟨["dev1", "dev2", "dev3"], ["dev1"]⟩ :
      BridgeState)).restoredDevices = [] ∧
    (onPortOpenSettle mixedDirectory
        (onPortClose ⟨["dev1", "dev2", "dev3"], ["dev1"]⟩)).2 =
      (["dev1", "dev2", "dev3"] : List String).flatMap
        (restoreDeviceState mixedDirectory) ∧
    (restoreDeviceState mixedDirectory "dev1").length = 1 ∧
    restoreDeviceState mixedDirectory "dev2" = [] ∧
    restoreDeviceState mixedDirectory "dev3" = [] :=
  ⟨(claim5_restore_once_per_epoch mixedDirectory
      ⟨["dev1", "dev2", "dev3"], ["dev1"]⟩ (by decide)).1,
    (claim5_restore_once_per_epoch mixedDirectory
      ⟨["dev1", "dev2", "dev3"], ["dev1"]⟩ (by decide)).2.1,
    (claim5_restore_once_per_epoch mixedDirectory
      ⟨["dev1", "dev2", "dev3"], ["dev1"]⟩ (by decide)).2.2.1 "dev1" ⟨7, 3⟩
      (by decide) (by decide),
    (claim5_restore_once_per_epoch mixedDirectory
      ⟨["dev1", "dev2", "dev3"], ["dev1"]⟩ (by decide)).2.2.2.1 "dev2" ⟨0, 5⟩
      (by decide) (by decide),
    (claim5_restore_once_per_epoch mixedDirectory
      ⟨["dev1", "dev2", "dev3"], ["dev1"]⟩ (by decide)).2.2.2.2 "dev3"
      (by decide)⟩

/-! ### Claim theorems: reconnection policy -/

/-- C6: once the attempt counter has reached `maxReconnectAttempts`,
`scheduleReconnect` returns without arming a timer or changing any
state, so no further reconnection attempt is ever scheduled by any
number of subsequent calls; `resetReconnectAttempts` puts the counter
back to zero, after which scheduling arms the delay timer again. -/
theorem claim6_reconnect_cap_halts_until_reset :
    (∀ s : ReconnectState,
      s.maxReconnectAttempts ≤ s.reconnectAttempts →
        scheduleReconnect s = s) ∧
    (∀ (s : ReconnectState) (n : Nat),
      s.maxReconnectAttempts ≤ s.reconnectAttempts →
        scheduleReconnect^[n] s = s) ∧
    (∀ s : ReconnectState,
      (resetReconnectAttempts s).reconnectAttempts = 0) ∧
    (∀ s : ReconnectState,
      s.isReconnecting = false → s.timerArmed = false →
      0 < s.maxReconnectAttempts →
        (scheduleReconnect (resetReconnectAttempts s)).timerArmed = true ∧
        (scheduleReconnect (resetReconnectAttempts s)).reconnectAttempts
          = 1) := by
  have hfix : ∀ s : ReconnectState,
      s.maxReconnectAttempts ≤ s.reconnectAttempts →
        scheduleReconnect s = s := by
    intro s h
    by_cases hb : (s.isReconnecting || s.timerArmed) = true
    · simp [scheduleReconnect, hb]
    · simp [scheduleReconnect, hb, h]
  refine ⟨hfix, ?_, fun _ => rfl, ?_⟩
  · intro s n h
    induction n with
    | zero => rfl
    | succ n ih => rw [Function.iterate_succ_apply, hfix s h, ih]
  · intro s h1 h2 h3
    have hnle : ¬ s.maxReconnectAttempts ≤ 0 := by omega
    constructor <;>
      simp [scheduleReconnect, resetReconnectAttempts, h1, h2, hnle]

/-- C6 witness: a run that exhausted its 10 attempts schedules nothing
(even across 3 further calls) until the explicit reset, after which one
call arms the timer with the counter restarted at 1. -/
theorem claim6_reconnect_cap_halts_until_reset_witness :
    scheduleReconnect ⟨10, 10, false, false⟩ = ⟨10, 10, false, false⟩ ∧
    scheduleReconnect^[3] ⟨10, 10, false, false⟩ = ⟨10, 10, false, false⟩ ∧
    (resetReconnectAttempts ⟨10, 10, false, false⟩).reconnectAttempts = 0 ∧
    (scheduleReconnect
      (resetReconnectAttempts ⟨10, 10, false, false⟩)).timerArmed = true :=
  ⟨claim6_reconnect_cap_halts_until_reset.1 ⟨10, 10, false, false⟩
      (by decide),
    claim6_reconnect_cap_halts_until_reset.2.1 ⟨10, 10, false, false⟩ 3
      (by decide),
    claim6_reconnect_cap_halts_until_reset.2.2.1 ⟨10, 10, false, false⟩,
    (claim6_reconnect_cap_halts_until_reset.2.2.2 ⟨10, 10, false, false⟩
      rfl rfl (by decide)).1⟩

/-! ### Claim theorems: rate limiter -/

/-- C7: for a limiter with `maxRequests = N`, once `N` admitted calls
have left `N` timestamps inside the current window, the next call
within that window returns false; and once every recorded timestamp is
at least `windowMs` old, a new call returns true (the limit being
positive, as it must be for any call to have been admitted). -/
theorem claim7_rate_limiter_window :
    (∀ (cfg : RateLimitConfig) (now : Int) (reqs : List Int),
      reqs.length = cfg.maxRequests →
      (∀ t ∈ reqs, now - cfg.windowMs < t) →
        (rlCheck cfg now reqs).1 = false) ∧
    (∀ (cfg : RateLimitConfig) (now : Int) (reqs : List Int),
      (∀ t ∈ reqs, t ≤ now - cfg.windowMs) →
      0 < cfg.maxRequests →
        (rlCheck cfg now reqs).1 = true) := by
  constructor
  · intro cfg now reqs hlen hin
    have hfilter : reqs.filter (fun t => now - cfg.windowMs < t) = reqs :=
      List.filter_eq_self.mpr (by
        intro t ht
        simpa using hin t ht)
    simp [rlCheck, hfilter, hlen]
  · intro cfg now reqs hout hpos
    have hfilter : reqs.filter (fun t => now - cfg.windowMs < t) = [] := by
      rw [List.filter_eq_nil_iff]
      intro t ht
      simpa using hout t ht
    have hnle : ¬ cfg.maxRequests ≤ 0 := by omega
    simp [rlCheck, hfilter, hnle]

/-- C7 witness: limit 2 over a 60000 ms window — a third call at 100
with both timestamps inside the window is rejected, and a call at 70000
after both have aged out is admitted. -/
theorem claim7_rate_limiter_window_witness :
    (rlCheck ⟨60000, 2⟩ 100 [50, 60]).1 = false ∧
    (rlCheck ⟨60000, 2⟩ 70000 [50, 60]).1 = true :=
  ⟨claim7_rate_limiter_window.1 ⟨60000, 2⟩ 100 [50, 60] (by decide)
      (by decide),
    claim7_rate_limiter_window.2 ⟨60000, 2⟩ 70000 [50, 60] (by decide)
      (by decide)⟩

/-! ### Claim theorems: throttler -/

/-- C8: the queued throttle variant coalesces suppressed updates: a
suppressed call emits nothing and leaves the incoming payload as the
most recent pending one (the queue's last slot), the pending storage for
a key never grows beyond `maxBurst` entries, and the interval-elapsed
flush emits exactly the most recent pending payload — never every
suppressed update — and clears the pending storage. -/
theorem claim8_throttle_queue_coalesces {α : Type} :
    (∀ (cfg : ThrottleConfig) (now : Int) (data : α) (s : ThrottleState α),
      s.queue.length ≤ jsOrOne cfg.maxBurst →
        ((throttleWithQueue cfg now data s).1).queue.length ≤
          jsOrOne cfg.maxBurst) ∧
    (∀ (cfg : ThrottleConfig) (now : Int) (data : α) (s : ThrottleState α),
      (canEmit cfg now s).1 = false →
        ((throttleWithQueue cfg now data s).1).queue.getLast? = some data ∧
        (throttleWithQueue cfg now data s).2 = []) ∧
    (∀ s : ThrottleState α,
      (flushQueue s).1.queue = [] ∧
      (flushQueue s).2 = s.queue.getLast?.toList) := by
  have hqueue_canEmit : ∀ (cfg : ThrottleConfig) (now : Int)
      (s : ThrottleState α), ((canEmit cfg now s).2).queue = s.queue := by
    intro cfg now s
    by_cases h : cfg.minInterval ≤ now - s.lastEventTime.getD 0
    · simp [canEmit, h]
    · simp [canEmit, h]
  have hpos : ∀ o : Option Nat, 0 < jsOrOne o := by
    intro o
    match o with
    | none => decide
    | some 0 => decide
    | some (n + 1) => exact Nat.succ_pos n
  refine ⟨?_, ?_, ?_⟩
  · intro cfg now data s hle
    by_cases hemit : (canEmit cfg now s).1 = true
    · simpa [throttleWithQueue, hemit, hqueue_canEmit] using hle
    · rw [Bool.not_eq_true] at hemit
      by_cases hroom : ((canEmit cfg now s).2).queue.length <
          jsOrOne cfg.maxBurst
      · have := hqueue_canEmit cfg now s
        simp only [throttleWithQueue, hemit, Bool.false_eq_true, if_false,
          hroom, if_true]
        rw [List.length_append, this]
        rw [this] at hroom
        simpa using hroom
      · have hq := hqueue_canEmit cfg now s
        simp only [throttleWithQueue, hemit, Bool.false_eq_true, if_false,
          hroom, if_false]
        rw [List.length_append, List.length_dropLast, hq]
        rw [hq] at hroom
        have h1 : 1 ≤ s.queue.length := by
          have := hpos cfg.maxBurst
          omega
        simpa using by omega
  · intro cfg now data s hemit
    have hq := hqueue_canEmit cfg now s
    by_cases hroom : ((canEmit cfg now s).2).queue.length <
        jsOrOne cfg.maxBurst
    · constructor <;>
        simp [throttleWithQueue, hemit, hroom, List.getLast?_concat]
    · constructor <;>
        simp [throttleWithQueue, hemit, hroom, List.getLast?_concat]
  · intro s
    rcases List.eq_nil_or_concat s.queue with hnil | ⟨l, a, hcat⟩
    · obtain ⟨lt, q⟩ := s
      simp only at hnil
      subst hnil
      exact ⟨rfl, rfl⟩
    · obtain ⟨lt, q⟩ := s
      simp only at hcat
      subst hcat
      simp [flushQueue, List.getLast?_concat]

/-- C8 witness: with minimum interval 500 and `maxBurst = 2`, a
suppressed update at time 100 joins the queue as most recent, the queue
never exceeds 2 entries, and the flush emits only the most recent
pending payload. -/
theorem claim8_throttle_queue_coalesces_witness :
    ((throttleWithQueue ⟨500, some 2⟩ 100 (7 : Nat) ⟨some 0, [1, 2]⟩).1).queue.length
      ≤ jsOrOne (some 2) ∧
    ((throttleWithQueue ⟨500, some 2⟩ 100 (7 : Nat) ⟨some 0, [1, 2]⟩).1).queue.getLast?
      = some 7 ∧
    (flushQueue (⟨some 0, [1, 2]⟩ : ThrottleState Nat)).2 = [2] :=
  ⟨claim8_throttle_queue_coalesces.1 ⟨500, some 2⟩ 100 7 ⟨some 0, [1, 2]⟩
      (by decide),
    (claim8_throttle_queue_coalesces.2.1 ⟨500, some 2⟩ 100 7 ⟨some 0, [1, 2]⟩
      (by decide)).1,
    (claim8_throttle_queue_coalesces.2.2 (⟨some 0, [1, 2]⟩ :
      ThrottleState Nat)).2⟩

end WsApi
